import Mathlib

/-!
Shallow embedding of the two GitHub labeler scripts of this repository:

* `scripts/internal/github_labeler.py`   (namespace `GHL`)
* `scripts/internal/github_issue_labeler.py` (namespace `GHIL`)

Both scripts scan issue/PR titles (and, for the first script, optionally
bodies) for keywords from a static `labels_map` table and request label
additions through `Setter.add_label`.  The embedding models the pure
decision logic: string matching, the exclusion/idempotence checks, the
derivation rules of `logical_adjust`, the body-scan suppression rules,
the dry-run write guard of `add_label` and the `-n` item limit of `main`.

Modelling conventions:

* Python's `keyword.lower() in text.lower()` substring test is modelled by
  `kwMatch` over `List Char` (all keywords in the table are ASCII, so the
  ASCII lowering `pyLowerChar` coincides with Python's `str.lower` there).
* An issue's label set is read from the fetched `issue.labels` attribute.
  The external GitHub client call `issue.add_to_labels` performs a remote
  request and does not refresh that cached attribute, and in dry-run mode
  nothing is mutated at all; hence `Issue.labels` is fixed while one item
  is processed, and remote mutation requests are collected separately in
  `StepResult.mutations`.
* The `assert label in self.avail_labels` statement of `add_label` is
  modelled by the `aborted` flag of `StepResult` / the `none` result of
  `add_label` (an assertion failure stops processing before anything else
  in that call happens).
* `labels_map['scripts']` is extended at startup with the `.py` filenames
  of the local `scripts/` directory; that directory listing is environment
  data, so it is a parameter `sf` of the table.
-/

namespace Labeler

/-- ASCII case lowering, as Python's `str.lower` acts on ASCII characters. -/
def pyLowerChar (c : Char) : Char :=
  if 'A' ≤ c ∧ c ≤ 'Z' then Char.ofNat (c.toNat + 32) else c

/-- `pyLower s` models `s.lower()` (all table keywords are ASCII). -/
def pyLower (s : String) : String := ⟨s.data.map pyLowerChar⟩

/-- `strSub needle haystack` models Python's substring operator
`needle in haystack` on strings, as a containment test on character
lists. -/
def strSub (needle : List Char) : List Char → Bool
  | [] => needle.isEmpty
  | c :: rest => needle.isPrefixOf (c :: rest) || strSub needle rest

/-- Python `needle in haystack` for `String`s. -/
def pyIn (needle haystack : String) : Bool := strSub needle.data haystack.data

/-- The match test of `_guess_from_text` / `guess_from_title`:
`keyword.lower() in text.lower()`. -/
def kwMatch (keyword text : String) : Bool :=
  pyIn (pyLower keyword) (pyLower text)

/-- `OS_LABELS` of both scripts (identical lists, `"openbsd"` repeated as in
the source). -/
def OS_LABELS : List String :=
  ["linux", "windows", "macos", "freebsd", "openbsd", "netbsd", "openbsd",
   "bsd", "sunos", "unix", "wsl", "aix", "cygwin"]

/-- An issue or pull request as read from the remote API: number, title,
body and the label names fetched with it. -/
structure Issue where
  number : Nat
  title : String
  body : String
  labels : List String
deriving DecidableEq

/-- `Setter.has_label`: membership of `label` in the item's fetched label
names. -/
def has_label (issue : Issue) (label : String) : Bool :=
  issue.labels.contains label

/-- `Setter.has_os_label`: does the item carry any label of `OS_LABELS`? -/
def has_os_label (issue : Issue) : Bool :=
  OS_LABELS.any (fun l => issue.labels.contains l)

/-- The configuration of a `Setter`: the label names configured in the
remote repository (fetched once at startup) and the `--write` toggle. -/
structure Config where
  avail_labels : List String
  do_write : Bool

/-- `Setter.add_label` of either script, for a single label: `none` models
the `assert label in self.avail_labels` failing; otherwise the pair of
(printed label proposals, remote `add_to_labels` mutation requests) this
call produces. -/
def add_label (cfg : Config) (issue : Issue) (label : String) :
    Option (List String × List String) :=
  if cfg.avail_labels.contains label then
    if has_label issue label then some ([], [])
    else some ([label], if cfg.do_write then [label] else [])
  else none

/-- Result of a sequence of `add_label` calls: the labels proposed
(printed), the remote mutation requests issued, and whether an assertion
aborted the run. -/
structure StepResult where
  proposed : List String
  mutations : List String
  aborted : Bool

/-- Folding `add_label` over a list of candidate labels, stopping at the
first assertion failure. -/
def applyLabels (cfg : Config) (issue : Issue) : StepResult → List String → StepResult
  | acc, [] => acc
  | acc, l :: ls =>
    if acc.aborted then acc
    else
      match add_label cfg issue l with
      | none => { acc with aborted := true }
      | some (p, m) =>
          applyLabels cfg issue
            ⟨acc.proposed ++ p, acc.mutations ++ m, false⟩ ls

end Labeler

namespace GHL

open Labeler

/-- The exclusion pairs of `Setter.should_add` in `github_labeler.py`:
`(new label, already-assigned label)`. -/
def pairs : List (String × String) :=
  [("bug", "enhancement"), ("scripts", "doc"), ("scripts", "tests")]

/-- `Setter.should_add` of `github_labeler.py`: refuse a candidate label
when an exclusion pair's right side is already assigned, or when the label
itself is already assigned. -/
def should_add (issue : Issue) (label : String) : Bool :=
  if pairs.any (fun p => label == p.1 && has_label issue p.2) then false
  else !(has_label issue label)

/-- `labels_map` of `github_labeler.py`, in the source's insertion order;
`sf` is the list of `.py` filenames appended to the `scripts` entry from
the local `scripts/` directory listing at startup. -/
def labels_map (sf : List String) : List (String × List String) :=
  [("linux",
    ["linux", "ubuntu", "redhat", "mint", "centos", "red hat", "archlinux",
     "debian", "alpine", "gentoo", "fedora", "slackware", "suse", "RHEL",
     "opensuse", "manylinux", "apt ", "apt-", "rpm", "yum", "kali",
     "/sys/class", "/proc/net", "/proc/disk", "/proc/smaps",
     "/proc/vmstat"]),
   ("windows",
    ["windows", "win32", "WinError", "WindowsError", "win10", "win7",
     "win ", "mingw", "msys", "studio", "microsoft", "make.bat",
     "CloseHandle", "GetLastError", "NtQuery", "DLL", "MSVC", "TCHAR",
     "WCHAR", ".bat", "OpenProcess", "TerminateProcess", "appveyor"]),
   ("macos",
    ["macos", "mac ", "osx", "os x", "mojave", "sierra", "capitan",
     "yosemite", "catalina", "xcode", "darwin", "dylib"]),
   ("aix", ["aix"]),
   ("cygwin", ["cygwin"]),
   ("freebsd", ["freebsd"]),
   ("netbsd", ["netbsd"]),
   ("openbsd", ["openbsd"]),
   ("sunos", ["sunos", "solaris"]),
   ("wsl", ["wsl"]),
   ("unix",
    ["psposix", "_psutil_posix", "waitpid", "statvfs", "/dev/tty",
     "/dev/pts"]),
   ("pypy", ["pypy"]),
   ("enhancement", ["enhancement"]),
   ("memleak", ["memory leak", "leaks memory", "memleak", "mem leak"]),
   ("api", ["idea", "proposal", "api", "feature"]),
   ("performance", ["performance", "speedup", "speed up", "slow", "fast"]),
   ("wheels", ["wheel", "wheels"]),
   ("scripts",
    ["example script", "examples script", "example dir", "scripts/"] ++ sf),
   ("bug",
    ["fail", "can\x27t execute", "can\x27t install", "cannot execute",
     "cannot install", "install error", "crash", "critical"]),
   ("doc",
    ["doc ", "document ", "documentation", "readthedocs", "pythonhosted",
     "HISTORY", "README", "dev guide", "devguide", "sphinx", "docfix",
     "index.rst"]),
   ("tests",
    ["test", "tests", "travis", "coverage", "cirrus", "appveyor",
     "continuous integration", "unittest", "pytest", "unit test"]),
   ("priority-high",
    ["WinError", "WindowsError", "RuntimeError", "ZeroDivisionError",
     "SystemError", "MemoryError", "core dumped",
     "segfault", "segmentation fault"])]

/-- `Setter._guess_from_text` of `github_labeler.py`: the ordered list of
`(label, matched keyword)` pairs yielded for `text` — one pair per keyword
of the table that matches and whose label passes `should_add`. -/
def guess_from_text (sf : List String) (issue : Issue) (text : String) :
    List (String × String) :=
  ((labels_map sf).map (fun lk =>
    (lk.2.filter (fun k => kwMatch k text && should_add issue lk.1)).map
      (fun k => (lk.1, k)))).flatten

/-- The phrase test of the enhancement branch of `logical_adjust`
(`t` is the already-lowered title). -/
def enhCond (t : String) : Bool :=
  pyIn "add support" t || pyIn "refactoring" t || pyIn "enhancement" t ||
    pyIn "adds support" t

/-- The phrase test of the bug branch of `logical_adjust`
(`t` is the already-lowered title). -/
def bugCond (t : String) : Bool :=
  pyIn "fix" t || pyIn "fixes" t || pyIn "is incorrect" t ||
    pyIn "is wrong" t

/-- `Setter.logical_adjust` (identical in both scripts): the ordered list
of labels it passes to `add_label` — the enhancement/bug derivation from
the title, then the generic-BSD rule.  The `check_dual_label` calls only
print warnings and add nothing. -/
def logical_adjust (issue : Issue) : List String :=
  (if !issue.labels.contains "bug" && !issue.labels.contains "enhancement" &&
      !issue.labels.contains "doc" then
     if enhCond (pyLower issue.title) then ["enhancement"]
     else if bugCond (pyLower issue.title) then ["bug"]
     else []
   else []) ++
  (if !has_os_label issue && pyIn "bsd" (pyLower issue.title) then ["bsd"]
   else [])

/-- `has_multi_os` of `Setter.guess_from_body`: more than one distinct
OS label among the labels matched in the body scan. -/
def body_multi_os (sf : List String) (issue : Issue) : Bool :=
  decide (1 < (((guess_from_text sf issue issue.body).map Prod.fst).filter
      (fun l => OS_LABELS.contains l)).dedup.length)

/-- `Setter.guess_from_body` of `github_labeler.py`: the `(label, keyword)`
pairs of the body scan that actually reach `add_label` — i.e. not in the
`tests`/`api`/`performance` skip list, an OS label, no OS label already on
the item, no multi-OS ambiguity in this scan, and no `scripts` label on
the item.  Labels outside `OS_LABELS` fall through the loop body and are
never added. -/
def guess_from_body (sf : List String) (issue : Issue) :
    List (String × String) :=
  (guess_from_text sf issue issue.body).filter (fun p =>
    !((["tests", "api", "performance"] : List String).contains p.1) &&
    OS_LABELS.contains p.1 &&
    !(has_os_label issue || body_multi_os sf issue) &&
    !(has_label issue "scripts"))

/-- Processing of one item in `main` of `github_labeler.py`:
`guess_from_title`, then `logical_adjust`, then (with `-b`, when the body
is non-empty) `guess_from_body`, each feeding `add_label`.  (`adjust_pr`
is `pass` in this script.) -/
def processItem (cfg : Config) (sf : List String) (bodyFlag : Bool)
    (issue : Issue) : StepResult :=
  if bodyFlag && !(issue.body == "") then
    applyLabels cfg issue
      (applyLabels cfg issue
        (applyLabels cfg issue ⟨[], [], false⟩
          ((guess_from_text sf issue issue.title).map Prod.fst))
        (logical_adjust issue))
      ((guess_from_body sf issue).map Prod.fst)
  else
    applyLabels cfg issue
      (applyLabels cfg issue ⟨[], [], false⟩
        ((guess_from_text sf issue issue.title).map Prod.fst))
      (logical_adjust issue)

/-- The item loop of `main`:
`for idx, issue in enumerate(issues, 1): if args.number and idx >= args.number: break; ...`.
Returns the items actually processed; `number = none` models `-n` absent
(and `some 0` is falsy, as in Python). -/
def loopProcess (number : Option Nat) : Nat → List Issue → List Issue
  | _, [] => []
  | idx, i :: rest =>
    if (match number with
        | some n => !(n == 0) && decide (idx ≥ n)
        | none => false) then []
    else i :: loopProcess number (idx + 1) rest

/-- The items processed by `main` for a fetched item list. -/
def mainProcessed (number : Option Nat) (issues : List Issue) : List Issue :=
  loopProcess number 1 issues

end GHL

namespace GHIL

open Labeler

/-- `labels_map` of `github_issue_labeler.py`, in the source's insertion
order (it differs from `github_labeler.py`'s table: `"apt"`/`"win"`
unpadded, an extra `"/sys/"`, no `"dylib"`/`"apt-"`/`"speed up"`, a
shorter `bug` list, `pypy` before `unix`); `sf` is the `.py` filename
extension of the `scripts` entry. -/
def labels_map (sf : List String) : List (String × List String) :=
  [("linux",
    ["linux", "ubuntu", "redhat", "mint", "centos", "red hat", "archlinux",
     "debian", "alpine", "gentoo", "fedora", "slackware", "suse", "RHEL",
     "opensuse", "manylinux", "apt", "rpm", "yum", "kali",
     "/sys/class", "/sys/", "/proc/net", "/proc/disk", "/proc/smaps",
     "/proc/vmstat"]),
   ("windows",
    ["windows", "win32", "WinError", "WindowsError", "win10", "win7",
     "win", "mingw", "msys", "studio", "microsoft", "make.bat",
     "CloseHandle", "GetLastError", "NtQuery", "DLL", "MSVC", "TCHAR",
     "WCHAR", ".bat", "OpenProcess", "TerminateProcess", "appveyor"]),
   ("macos",
    ["macos", "mac ", "osx", "os x", "mojave", "sierra", "capitan",
     "yosemite", "catalina", "xcode", "darwin"]),
   ("aix", ["aix"]),
   ("cygwin", ["cygwin"]),
   ("freebsd", ["freebsd"]),
   ("netbsd", ["netbsd"]),
   ("openbsd", ["openbsd"]),
   ("sunos", ["sunos", "solaris"]),
   ("wsl", ["wsl"]),
   ("pypy", ["pypy"]),
   ("unix",
    ["psposix", "_psutil_posix", "waitpid", "statvfs", "/dev/tty",
     "/dev/pts"]),
   ("enhancement", ["enhancement"]),
   ("memleak", ["memory leak", "leaks memory", "memleak", "mem leak"]),
   ("api", ["idea", "proposal", "api", "feature"]),
   ("performance", ["performance", "speedup", "slow", "fast"]),
   ("wheels", ["wheel", "wheels"]),
   ("scripts",
    ["example script", "examples script", "example dir", "scripts/"] ++ sf),
   ("bug",
    ["can\x27t execute", "can\x27t install", "cannot execute",
     "cannot install"]),
   ("doc",
    ["doc ", "document ", "documentation", "readthedocs", "pythonhosted",
     "HISTORY", "README", "dev guide", "devguide", "sphinx", "docfix",
     "index.rst"]),
   ("tests",
    ["test", "tests", "travis", "coverage", "cirrus", "appveyor",
     "continuous integration", "unittest", "pytest", "unit test"]),
   ("priority-high",
    ["WinError", "WindowsError", "RuntimeError", "ZeroDivisionError",
     "SystemError", "MemoryError", "core dumped",
     "segfault", "segmentation fault"])]

/-- `Setter.guess_from_title` of `github_issue_labeler.py`: the ordered
list of labels it passes to `add_label` — one per matching keyword whose
label is not already on the item.  It consults no exclusion pairs. -/
def guess_from_title (sf : List String) (issue : Issue) : List String :=
  ((labels_map sf).map (fun lk =>
    (lk.2.filter (fun k =>
      kwMatch k issue.title && !(issue.labels.contains lk.1))).map
      (fun _ => lk.1))).flatten

end GHIL

open Labeler

/-- An `add_label` call that passes its assertion issues no mutation
request in dry-run mode. -/
theorem add_label_dry {cfg : Config} {issue : Issue} {label : String}
    (h : cfg.do_write = false) {p m : List String}
    (he : add_label cfg issue label = some (p, m)) : m = [] := by
  unfold add_label at he
  split at he
  · split at he
    · simp only [Option.some.injEq, Prod.mk.injEq] at he
      exact he.2.symm
    · rw [h] at he
      simp only [Bool.false_eq_true, if_false, Option.some.injEq,
        Prod.mk.injEq] at he
      exact he.2.symm
  · exact Option.noConfusion he

/-- In dry-run mode a sequence of `add_label` calls issues no mutation
request at all. -/
theorem applyLabels_dry (cfg : Config) (issue : Issue)
    (h : cfg.do_write = false) :
    ∀ (ls : List String) (acc : StepResult),
      (applyLabels cfg issue acc ls).mutations = acc.mutations := by
  intro ls
  induction ls with
  | nil => intro acc; rfl
  | cons l ls ih =>
    intro acc
    simp only [applyLabels]
    split
    · rfl
    · split
      · rfl
      · next p m heq =>
          rw [ih]
          rw [add_label_dry h heq]
          exact List.append_nil _

/-- When no assertion fires, a sequence of `add_label` calls proposes
exactly the candidate labels not already on the item, in order. -/
theorem applyLabels_ok (cfg : Config) (issue : Issue) :
    ∀ (ls : List String) (acc : StepResult), acc.aborted = false →
      (∀ l ∈ ls, cfg.avail_labels.contains l = true) →
      (applyLabels cfg issue acc ls).proposed
          = acc.proposed ++ ls.filter (fun l => !(has_label issue l)) ∧
        (applyLabels cfg issue acc ls).aborted = false := by
  intro ls
  induction ls with
  | nil =>
    intro acc ha _
    exact ⟨(List.append_nil _).symm, ha⟩
  | cons l ls ih =>
    intro acc ha hav
    have hc : cfg.avail_labels.contains l = true := hav l (List.mem_cons_self l ls)
    have hav' : ∀ x ∈ ls, cfg.avail_labels.contains x = true :=
      fun x hx => hav x (List.mem_cons_of_mem l hx)
    simp only [applyLabels, ha, Bool.false_eq_true, if_false, add_label, hc, if_true]
    by_cases hh : has_label issue l = true
    · rw [if_pos hh]
      obtain ⟨h1, h2⟩ := ih ⟨acc.proposed ++ [], acc.mutations ++ [], false⟩ rfl hav'
      refine ⟨?_, h2⟩
      rw [h1]
      simp [hh]
    · rw [if_neg hh]
      obtain ⟨h1, h2⟩ := ih
        ⟨acc.proposed ++ [l], acc.mutations ++ (if cfg.do_write then [l] else []),
          false⟩ rfl hav'
      refine ⟨?_, h2⟩
      rw [h1]
      rw [Bool.not_eq_true] at hh
      simp [hh]

/-- Membership characterisation of `_guess_from_text`: one pair per
keyword of the table matching the text whose label passes `should_add`. -/
theorem mem_guess_from_text {sf : List String} {issue : Issue}
    {text l k : String} :
    (l, k) ∈ GHL.guess_from_text sf issue text ↔
      ∃ lk ∈ GHL.labels_map sf, lk.1 = l ∧ k ∈ lk.2 ∧
        kwMatch k text = true ∧ GHL.should_add issue l = true := by
  unfold GHL.guess_from_text
  rw [List.mem_flatten]
  constructor
  · rintro ⟨L, hL, hmem⟩
    rw [List.mem_map] at hL
    obtain ⟨lk, hlk, rfl⟩ := hL
    rw [List.mem_map] at hmem
    obtain ⟨k2, hk2, heq⟩ := hmem
    rw [List.mem_filter, Bool.and_eq_true] at hk2
    have h1 : lk.1 = l := congrArg Prod.fst heq
    have h2 : k2 = k := congrArg Prod.snd heq
    subst h1
    subst h2
    exact ⟨lk, hlk, rfl, hk2.1, hk2.2.1, hk2.2.2⟩
  · rintro ⟨lk, hlk, h1, hk, hmt, hs⟩
    subst h1
    refine ⟨(lk.2.filter
        (fun k2 => kwMatch k2 text && GHL.should_add issue lk.1)).map
        (fun k2 => (lk.1, k2)), ?_, ?_⟩
    · rw [List.mem_map]
      exact ⟨lk, hlk, rfl⟩
    · rw [List.mem_map]
      refine ⟨k, ?_, rfl⟩
      rw [List.mem_filter, Bool.and_eq_true]
      exact ⟨hk, hmt, hs⟩

/-- A label passing `should_add` is not already on the item. -/
theorem should_add_not_has {issue : Issue} {label : String}
    (h : GHL.should_add issue label = true) : has_label issue label = false := by
  unfold GHL.should_add at h
  split at h
  · exact Bool.noConfusion h
  · rw [Bool.not_eq_true'] at h
    exact h

/-- `should_add` refuses the left side of a configured exclusion pair when
the right side is assigned. -/
theorem should_add_pair {issue : Issue} {left right : String}
    (hp : (left, right) ∈ GHL.pairs) (hr : has_label issue right = true) :
    GHL.should_add issue left = false := by
  unfold GHL.should_add
  have hany : GHL.pairs.any (fun p => left == p.1 && has_label issue p.2) = true := by
    rw [List.any_eq_true]
    exact ⟨(left, right), hp, by simp [hr]⟩
  rw [if_pos hany]

/-- A label yielded by the issue labeler's `guess_from_title` is not
already on the item. -/
theorem il_guess_not_has {sf : List String} {issue : Issue} {l : String}
    (h : l ∈ GHIL.guess_from_title sf issue) :
    issue.labels.contains l = false := by
  unfold GHIL.guess_from_title at h
  rw [List.mem_flatten] at h
  obtain ⟨L, hL, hmem⟩ := h
  rw [List.mem_map] at hL
  obtain ⟨lk, hlk, rfl⟩ := hL
  rw [List.mem_map] at hmem
  obtain ⟨k, hk, heq⟩ := hmem
  rw [List.mem_filter, Bool.and_eq_true] at hk
  rw [← heq]
  have hcl := hk.2.2
  rw [Bool.not_eq_true'] at hcl
  exact hcl

/-- Extra `scripts` keywords that match nowhere in a text do not change the
outcome of `_guess_from_text` on that text. -/
theorem guess_from_text_no_sf (sf : List String) (issue : Issue)
    (text : String) (h : ∀ k ∈ sf, kwMatch k text = false) :
    GHL.guess_from_text sf issue text = GHL.guess_from_text [] issue text := by
  have hf : sf.filter
      (fun k => kwMatch k text && GHL.should_add issue "scripts") = [] := by
    rw [List.filter_eq_nil_iff]
    intro a ha
    simp [h a ha]
  simp only [GHL.guess_from_text, GHL.labels_map, List.map_cons, List.map_nil,
    List.filter_append, hf, List.append_nil]

/-- C1 (counterexample): `(bug, enhancement)` is a configured exclusion
pair, yet `guess_from_title` of `github_issue_labeler.py` — which consults
no exclusion rules — proposes `bug` for an item already labelled
`enhancement` whose title matches the `bug` keyword `"cannot install"`. -/
theorem C1_counterexample :
    ("bug", "enhancement") ∈ GHL.pairs ∧
      "enhancement" ∈ (Issue.mk 2 "cannot install psutil" "" ["enhancement"]).labels ∧
      "bug" ∈ GHIL.guess_from_title []
        (Issue.mk 2 "cannot install psutil" "" ["enhancement"]) := by
  refine ⟨by decide, by decide, by decide⟩

/-- C1 (amended): in `github_labeler.py`, whose classifier checks
`should_add`, classification never proposes the left label of an exclusion
pair while the right label is assigned; `github_issue_labeler.py`'s
`guess_from_title` performs no such check. -/
theorem C1_theorem (sf : List String) (issue : Issue) (text : String)
    (left right kw : String) (hp : (left, right) ∈ GHL.pairs)
    (hr : has_label issue right = true) :
    (left, kw) ∉ GHL.guess_from_text sf issue text := by
  intro hmem
  obtain ⟨lk, _, _, _, _, hs⟩ := mem_guess_from_text.mp hmem
  rw [should_add_pair hp hr] at hs
  exact Bool.noConfusion hs

/-- C1 witness: an item labelled `enhancement` never gets `bug` proposed by
the `github_labeler.py` classifier. -/
theorem C1_witness :
    ("bug", "crash") ∉ GHL.guess_from_text []
      (Issue.mk 10 "crash" "" ["enhancement"]) "crash" :=
  C1_theorem [] (Issue.mk 10 "crash" "" ["enhancement"]) "crash"
    "bug" "enhancement" "crash" (by decide) (by decide)

/-- C2: a label already on the item is never re-proposed, by either
classifier: `should_add` of `github_labeler.py` ends in
`not self.has_label(...)`, and `guess_from_title` of
`github_issue_labeler.py` checks `label not in issue_labels`. -/
theorem C2_theorem (sf : List String) (issue : Issue) (text l : String)
    (h : has_label issue l = true) :
    (∀ kw, (l, kw) ∉ GHL.guess_from_text sf issue text) ∧
      l ∉ GHIL.guess_from_title sf issue := by
  constructor
  · intro kw hmem
    obtain ⟨lk, _, _, _, _, hs⟩ := mem_guess_from_text.mp hmem
    rw [should_add_not_has hs] at h
    exact Bool.noConfusion h
  · intro hmem
    have hc := il_guess_not_has hmem
    unfold has_label at h
    rw [hc] at h
    exact Bool.noConfusion h

/-- C2 witness at a concrete item: an item already labelled `linux` with a
title matching the `linux` keyword gets `linux` proposed by neither
classifier. -/
theorem C2_witness :
    (∀ kw, ("linux", kw) ∉ GHL.guess_from_text []
        (Issue.mk 11 "linux bug" "" ["linux"]) "linux bug") ∧
      "linux" ∉ GHIL.guess_from_title [] (Issue.mk 11 "linux bug" "" ["linux"]) :=
  C2_theorem [] (Issue.mk 11 "linux bug" "" ["linux"]) "linux bug" "linux"
    (by decide)

/-- C3: with write mode disabled, processing an item issues no remote
mutation request, so the remote label state after the run equals the state
before it. -/
theorem C3_theorem (cfg : Config) (sf : List String) (bodyFlag : Bool)
    (issue : Issue) (h : cfg.do_write = false) :
    (GHL.processItem cfg sf bodyFlag issue).mutations = [] ∧
      issue.labels ++ (GHL.processItem cfg sf bodyFlag issue).mutations
        = issue.labels := by
  have hm : (GHL.processItem cfg sf bodyFlag issue).mutations = [] := by
    unfold GHL.processItem
    split
    · rw [applyLabels_dry cfg issue h, applyLabels_dry cfg issue h,
        applyLabels_dry cfg issue h]
    · rw [applyLabels_dry cfg issue h, applyLabels_dry cfg issue h]
  exact ⟨hm, by rw [hm, List.append_nil]⟩

/-- C3 witness: a dry-run on an item whose title and body both produce
proposals still issues no mutation request. -/
theorem C3_witness :
    (GHL.processItem ⟨["bug", "linux"], false⟩ [] true
        (Issue.mk 12 "crash" "linux" [])).mutations = [] ∧
      (Issue.mk 12 "crash" "linux" []).labels ++
        (GHL.processItem ⟨["bug", "linux"], false⟩ [] true
          (Issue.mk 12 "crash" "linux" [])).mutations
        = (Issue.mk 12 "crash" "linux" []).labels :=
  C3_theorem ⟨["bug", "linux"], false⟩ [] true (Issue.mk 12 "crash" "linux" []) rfl

/-- C4 (counterexample): on title "Segmentation fault on FreeBSD" with no
existing labels, processing proposes `bsd` as well: `add_label` never
updates the fetched label set, so the generic-BSD rule of
`logical_adjust` still sees no platform label. -/
theorem C4_counterexample :
    (GHL.processItem ⟨["bsd", "freebsd", "priority-high"], false⟩ [] false
        (Issue.mk 1 "Segmentation fault on FreeBSD" "" [])).proposed
      = ["freebsd", "priority-high", "bsd"] ∧
    "bsd" ∈ (GHL.processItem ⟨["bsd", "freebsd", "priority-high"], false⟩ [] false
        (Issue.mk 1 "Segmentation fault on FreeBSD" "" [])).proposed := by
  refine ⟨by decide, by decide⟩

/-- C4 (amended): on title "Segmentation fault on FreeBSD" with no existing
labels (and no script-filename keyword matching the title), processing
proposes exactly `freebsd`, `priority-high` and the generic `bsd`, in that
order. -/
theorem C4_theorem (cfg : Config) (sf : List String)
    (hsf : ∀ k ∈ sf, kwMatch k "Segmentation fault on FreeBSD" = false)
    (h1 : cfg.avail_labels.contains "freebsd" = true)
    (h2 : cfg.avail_labels.contains "priority-high" = true)
    (h3 : cfg.avail_labels.contains "bsd" = true) :
    (GHL.processItem cfg sf false
        (Issue.mk 1 "Segmentation fault on FreeBSD" "" [])).proposed
      = ["freebsd", "priority-high", "bsd"] := by
  have hg : (GHL.guess_from_text sf
      (Issue.mk 1 "Segmentation fault on FreeBSD" "" [])
      (Issue.mk 1 "Segmentation fault on FreeBSD" "" []).title).map Prod.fst
      = ["freebsd", "priority-high"] := by
    rw [show (Issue.mk 1 "Segmentation fault on FreeBSD" "" []).title
        = "Segmentation fault on FreeBSD" from rfl]
    rw [guess_from_text_no_sf sf _ _ hsf]
    decide
  have hadj : GHL.logical_adjust (Issue.mk 1 "Segmentation fault on FreeBSD" "" [])
      = ["bsd"] := by decide
  unfold GHL.processItem
  rw [if_neg (by simp)]
  rw [hg, hadj]
  obtain ⟨hp1, ha1⟩ := applyLabels_ok cfg
    (Issue.mk 1 "Segmentation fault on FreeBSD" "" [])
    ["freebsd", "priority-high"] ⟨[], [], false⟩ rfl
    (by
      intro x hx
      rcases List.mem_cons.mp hx with rfl | hx2
      · exact h1
      rcases List.mem_cons.mp hx2 with rfl | hx3
      · exact h2
      · exact absurd hx3 (List.not_mem_nil x))
  obtain ⟨hp2, _⟩ := applyLabels_ok cfg
    (Issue.mk 1 "Segmentation fault on FreeBSD" "" []) ["bsd"]
    (applyLabels cfg (Issue.mk 1 "Segmentation fault on FreeBSD" "" [])
      ⟨[], [], false⟩ ["freebsd", "priority-high"]) ha1
    (by
      intro x hx
      rcases List.mem_cons.mp hx with rfl | hx2
      · exact h3
      · exact absurd hx2 (List.not_mem_nil x))
  rw [hp2, hp1]
  decide

/-- C4 witness: the amended scenario at a concrete configuration. -/
theorem C4_witness :
    (GHL.processItem ⟨["freebsd", "priority-high", "bsd"], true⟩ [] false
        (Issue.mk 1 "Segmentation fault on FreeBSD" "" [])).proposed
      = ["freebsd", "priority-high", "bsd"] :=
  C4_theorem ⟨["freebsd", "priority-high", "bsd"], true⟩ []
    (fun k hk => absurd hk (List.not_mem_nil k))
    (by decide) (by decide) (by decide)

/-- C5: every pair the body scan actually adds is a platform label on an
item with no platform label, no multi-OS ambiguity in this scan, and no
`scripts` label; `tests`, `api` and `performance` are never added from the
body. -/
theorem C5_theorem (sf : List String) (issue : Issue) (l kw : String)
    (h : (l, kw) ∈ GHL.guess_from_body sf issue) :
    (["tests", "api", "performance"] : List String).contains l = false ∧
      OS_LABELS.contains l = true ∧
      has_os_label issue = false ∧
      GHL.body_multi_os sf issue = false ∧
      has_label issue "scripts" = false := by
  unfold GHL.guess_from_body at h
  rw [List.mem_filter] at h
  obtain ⟨-, hp⟩ := h
  simp only [Bool.and_eq_true, Bool.not_eq_true', Bool.or_eq_false_iff] at hp
  exact ⟨hp.1.1.1, hp.1.1.2, hp.1.2.1, hp.1.2.2, hp.2⟩

/-- C5 witness: a body matching only the `freebsd` keyword on an unlabelled
item passes all the suppression checks. -/
theorem C5_witness :
    (["tests", "api", "performance"] : List String).contains "freebsd" = false ∧
      OS_LABELS.contains "freebsd" = true ∧
      has_os_label (Issue.mk 3 "t" "freebsd panic" []) = false ∧
      GHL.body_multi_os [] (Issue.mk 3 "t" "freebsd panic" []) = false ∧
      has_label (Issue.mk 3 "t" "freebsd panic" []) "scripts" = false :=
  C5_theorem [] (Issue.mk 3 "t" "freebsd panic" []) "freebsd" "freebsd"
    (by decide)

/-- C6: for an item carrying none of `bug`, `enhancement`, `doc`, the
title-derivation rules of `logical_adjust` never add both `enhancement`
and `bug`, and a title containing "add support" yields `enhancement` and
never `bug` (the enhancement branch is tried first). -/
theorem C6_theorem (issue : Issue)
    (h1 : issue.labels.contains "bug" = false)
    (h2 : issue.labels.contains "enhancement" = false)
    (h3 : issue.labels.contains "doc" = false) :
    ¬("enhancement" ∈ GHL.logical_adjust issue ∧
        "bug" ∈ GHL.logical_adjust issue) ∧
      (pyIn "add support" (pyLower issue.title) = true →
        "enhancement" ∈ GHL.logical_adjust issue ∧
          "bug" ∉ GHL.logical_adjust issue) := by
  unfold GHL.logical_adjust
  rw [h1, h2, h3]
  by_cases he : GHL.enhCond (pyLower issue.title) = true
  · by_cases hd : (!has_os_label issue && pyIn "bsd" (pyLower issue.title)) = true
    · simp [he, hd]
    · simp [he, hd]
  · by_cases hb : GHL.bugCond (pyLower issue.title) = true
    · by_cases hd : (!has_os_label issue && pyIn "bsd" (pyLower issue.title)) = true
      · simp only [he, hb, hd]
        constructor
        · rintro ⟨hc, -⟩
          simp at hc
        · intro hadd
          exact absurd (by simp [GHL.enhCond, hadd]) he
      · simp only [he, hb, hd]
        constructor
        · rintro ⟨hc, -⟩
          simp at hc
        · intro hadd
          exact absurd (by simp [GHL.enhCond, hadd]) he
    · by_cases hd : (!has_os_label issue && pyIn "bsd" (pyLower issue.title)) = true
      · simp only [he, hb, hd]
        constructor
        · rintro ⟨hc, -⟩
          simp at hc
        · intro hadd
          exact absurd (by simp [GHL.enhCond, hadd]) he
      · simp only [he, hb, hd]
        constructor
        · rintro ⟨hc, -⟩
          simp at hc
        · intro hadd
          exact absurd (by simp [GHL.enhCond, hadd]) he

/-- C6 witness: a title containing both "add support" and "fix" on an
unlabelled item derives `enhancement` only. -/
theorem C6_witness :
    "enhancement" ∈ GHL.logical_adjust
        (Issue.mk 13 "add support for X and fix Y" "" []) ∧
      "bug" ∉ GHL.logical_adjust (Issue.mk 13 "add support for X and fix Y" "" []) :=
  (C6_theorem (Issue.mk 13 "add support for X and fix Y" "" [])
    (by decide) (by decide) (by decide)).2 (by decide)

/-- C7 (counterexample): on title "sunos and solaris" both keywords of the
`sunos` entry match, so a single title classification yields `sunos`
twice, and in write mode the same label is applied (a mutation request is
issued) twice for the same item. -/
theorem C7_counterexample :
    ((GHL.guess_from_text [] (Issue.mk 4 "sunos and solaris" "" [])
        "sunos and solaris").map Prod.fst = ["sunos", "sunos"]) ∧
      (GHL.processItem ⟨["sunos"], true⟩ [] false
          (Issue.mk 4 "sunos and solaris" "" [])).mutations
        = ["sunos", "sunos"] := by
  refine ⟨by decide, by decide⟩

/-- C7 (amended): a single classification yields one `(label, keyword)`
pair per keyword of the table that matches the text and whose label passes
`should_add`; hence the same label can be yielded — and applied — once per
distinct matching keyword. -/
theorem C7_theorem (sf : List String) (issue : Issue) (text l k : String) :
    (l, k) ∈ GHL.guess_from_text sf issue text ↔
      ∃ lk ∈ GHL.labels_map sf, lk.1 = l ∧ k ∈ lk.2 ∧
        kwMatch k text = true ∧ GHL.should_add issue l = true :=
  mem_guess_from_text

/-- C8: the `-n` limit of `main` breaks when `idx >= args.number` with
`idx` starting at 1, so it processes only the first N−1 items: with
`-n 1` no item is processed, with `-n 2` only the first, while without
`-n` all items are processed. -/
theorem C8_code_evaluation :
    GHL.mainProcessed (some 1) [Issue.mk 1 "a" "" [], Issue.mk 2 "b" "" []] = [] ∧
      GHL.mainProcessed (some 2) [Issue.mk 1 "a" "" [], Issue.mk 2 "b" "" []]
        = [Issue.mk 1 "a" "" []] ∧
      GHL.mainProcessed none [Issue.mk 1 "a" "" [], Issue.mk 2 "b" "" []]
        = [Issue.mk 1 "a" "" [], Issue.mk 2 "b" "" []] := by
  refine ⟨by decide, by decide, by decide⟩

/-- C9: `add_label` aborts on its assertion exactly when the label is not
in the repository's configured label set. -/
theorem C9_theorem (cfg : Config) (issue : Issue) (label : String) :
    add_label cfg issue label = none ↔
      cfg.avail_labels.contains label = false := by
  unfold add_label
  by_cases hc : cfg.avail_labels.contains label = true
  · rw [if_pos hc]
    constructor
    · intro h
      split at h <;> exact Option.noConfusion h
    · intro h
      rw [hc] at h
      exact Bool.noConfusion h
  · rw [if_neg hc]
    rw [Bool.not_eq_true] at hc
    exact iff_of_true rfl hc

/-- C10: the body-scan pass only ever adds platform labels: any matched
label outside `OS_LABELS` is silently discarded. -/
theorem C10_theorem (sf : List String) (issue : Issue) (l kw : String)
    (h : (l, kw) ∈ GHL.guess_from_body sf issue) :
    OS_LABELS.contains l = true := by
  unfold GHL.guess_from_body at h
  rw [List.mem_filter] at h
  obtain ⟨-, hp⟩ := h
  simp only [Bool.and_eq_true] at hp
  exact hp.1.1.2

/-- C10 witness: the one label added from a body matching only `openbsd`
is indeed a platform label. -/
theorem C10_witness : OS_LABELS.contains "openbsd" = true :=
  C10_theorem [] (Issue.mk 5 "t" "openbsd kernel" []) "openbsd" "openbsd"
    (by decide)
